import Mathlib

/-!
Verification of the `google-books` client library (src/lib/google-books.js).

The module is shallowly embedded: the client's mutable state (the settings
record, which line 70 of the source mutates via `extend(settings.queryParams,
{q, startIndex})`, and the lazily created memoizing search cache) is threaded
explicitly, and every operation additionally returns the list of HTTP GET
requests it handed to the transport, in issue order.

Third-party collaborators are modelled from their documented behaviour:
 * `validator` (2013-era node-validator): `check(x).notNull()` coerces
   null/undefined to `''` and fails on `''`; `.notEmpty()` fails when the
   string matches `/^[\s\t\r\n]*$/` (all-whitespace, including empty);
   `sanitize(x).toInt()` is `parseInt(String(x), 10)` (NaN when no leading
   integer).
 * `querystring.stringify` serialises the parameter object in property
   insertion order with `encodeURIComponent`-style percent escaping.
 * `memoizee` with `{async: true, length: 1, primitive: true}` keys the cache
   on the first argument (the fully serialised request URL) and caches the
   callback's arguments, errors included; `maxAge: 0` (falsy) means entries
   never expire.
 * `request.get(requestOptions, cb)` performs one GET, serialising
   `requestOptions.qs` onto `requestOptions.uri`.
 * `async.series` runs the jobs strictly sequentially and stops at the first
   error, which it passes through unchanged; the embedding's page recursion
   mirrors this.
 * `extend` (node-extend): `extend(target, src)` mutates `target` in place;
   `extend(true, defaults, options)` deep-merges field by field.

JS numbers are modelled as `Int` (the fractional/NaN corners of `startIndex`
play no role in any claim); JS strings as `String`.  The source's default
`logger` is the bare function `function () {}`, which has no `log` method, so
the calls `settings.logger.log(...)` throw a TypeError on a default-configured
client; `LoggerVal` models whether the configured logger object actually has a
callable `log` member (e.g. `console`).
-/

namespace GoogleBooksModel

/-- Whether the configured logger value has a callable `log` member.
`plainFn` is the source's default `function () {}` (no `log` method: calling
`settings.logger.log` throws a TypeError); `withLog` is a user-supplied
console-like object whose `log` is a no-op for the model. -/
inductive LoggerVal
  | plainFn
  | withLog
  deriving DecidableEq

def loggerOk : LoggerVal → Bool
  | .plainFn => false
  | .withLog => true

/-- The `queryParams` object of the settings.  `q` is `none` until the first
single-page fetch mutates the object (source line 70). -/
structure QueryParams where
  maxResults : Int
  startIndex : Int
  langRestrict : String
  printType : String
  q : Option String
  deriving DecidableEq

/-- The `cacheOptions` object handed to `memoizee`. -/
structure CacheOptions where
  maxAge : Int
  async : Bool
  length : Nat
  primitive : Bool
  deriving DecidableEq

/-- The settings record produced at construction (source line 40).  The
`logger` callback is modelled only by whether it has a `log` method. -/
structure Settings where
  queryParams : QueryParams
  cacheOptions : CacheOptions
  setsToFetch : Int
  apiUrl : String
  logger : LoggerVal
  deriving DecidableEq

instance instDecEqExcept {ε α : Type} [DecidableEq ε] [DecidableEq α] :
    DecidableEq (Except ε α) := fun x y =>
  match x, y with
  | .ok a, .ok b =>
      if h : a = b then .isTrue (by rw [h]) else .isFalse (by simp [h])
  | .error a, .error b =>
      if h : a = b then .isTrue (by rw [h]) else .isFalse (by simp [h])
  | .ok _, .error _ => .isFalse (by simp)
  | .error _, .ok _ => .isFalse (by simp)

/-- One entry of the memoizing search cache: key (the full request URL),
logical insertion time, and the cached callback outcome (memoizee caches the
callback's arguments, a transport error included). -/
structure CacheEntry (β : Type) where
  key : String
  storedAt : Nat
  value : Except String β
  deriving DecidableEq

/-- Mutable state of one client instance: the settings record and the lazily
created cache (`searchCache = null` before first use). -/
structure ClientState (β : Type) where
  settings : Settings
  cache : Option (List (CacheEntry β))
  deriving DecidableEq

/- ------------------------------------------------------------------ -/
/- Construction: `extend(true, defaults, options || {})`              -/
/- ------------------------------------------------------------------ -/

structure QueryParamsOpts where
  maxResults : Option Int := none
  startIndex : Option Int := none
  langRestrict : Option String := none
  printType : Option String := none
  deriving DecidableEq

structure CacheOptionsOpts where
  maxAge : Option Int := none
  async : Option Bool := none
  length : Option Nat := none
  primitive : Option Bool := none
  deriving DecidableEq

structure GoogleBooksOptions where
  queryParams : QueryParamsOpts := {}
  cacheOptions : CacheOptionsOpts := {}
  setsToFetch : Option Int := none
  apiUrl : Option String := none
  logger : Option LoggerVal := none
  deriving DecidableEq

/-- Deep merge of user options over the built-in defaults (source lines
22-40). -/
def mergeSettings (o : GoogleBooksOptions) : Settings :=
  { queryParams :=
      { maxResults := o.queryParams.maxResults.getD 40
        startIndex := o.queryParams.startIndex.getD 0
        langRestrict := o.queryParams.langRestrict.getD "en"
        printType := o.queryParams.printType.getD "books"
        q := none }
    cacheOptions :=
      { maxAge := o.cacheOptions.maxAge.getD 0
        async := o.cacheOptions.async.getD true
        length := o.cacheOptions.length.getD 1
        primitive := o.cacheOptions.primitive.getD true }
    setsToFetch := o.setsToFetch.getD 1
    apiUrl := o.apiUrl.getD "https://www.googleapis.com/books/v1/volumes"
    logger := o.logger.getD .plainFn }

/-- A fresh client instance: merged settings, cache not yet created. -/
def GoogleBooks (o : GoogleBooksOptions) : ClientState β :=
  ⟨mergeSettings o, none⟩

/- ------------------------------------------------------------------ -/
/- JS string semantics helpers                                        -/
/- ------------------------------------------------------------------ -/

/-- JS regex `\s` character class (plus the explicit `\t\r\n` of the
validator's `/^[\s\t\r\n]*$/`). -/
def jsWsChar (c : Char) : Bool :=
  let n := c.toNat
  n = 32 || n = 9 || n = 10 || n = 11 || n = 12 || n = 13 || n = 160 ||
  n = 0x1680 || (0x2000 ≤ n && n ≤ 0x200a) || n = 0x2028 || n = 0x2029 ||
  n = 0x202f || n = 0x205f || n = 0x3000 || n = 0xfeff

/-- True when the string matches `/^[\s\t\r\n]*$/` (validator `notEmpty`
failure; the empty string is blank). -/
def blankStr (s : String) : Bool :=
  s.data.all jsWsChar

/-- `check(x).notNull().notEmpty()` of the validator: null/undefined coerce to
`''`; passes exactly when the value is a string that is not all-whitespace. -/
def checkNotNullNotEmpty (s : Option String) : Bool :=
  match s with
  | none => false
  | some s => !(blankStr s)

/-- `check(x).notNull()` alone: fails exactly on null/undefined/`''`. -/
def checkNotNull (s : Option String) : Bool :=
  match s with
  | none => false
  | some s => !(s = "")

/-- Does the pattern occur at the head of the list? -/
def listStarts : List Char → List Char → Bool
  | [], _ => true
  | _ :: _, [] => false
  | p :: ps, c :: cs => if p = c then listStarts ps cs else false

/-- `options.query.indexOf('id:') === 0` (source line 76). -/
def idColonAtStart (s : String) : Bool :=
  listStarts ("id:".data) s.data

/-- JS `String.prototype.replace` with a plain-string pattern replaces only
the FIRST occurrence; with an empty replacement it deletes it. -/
def replaceFirstAux (pat : List Char) : List Char → List Char
  | [] => []
  | c :: cs =>
      if listStarts pat (c :: cs) then (c :: cs).drop pat.length
      else c :: replaceFirstAux pat cs

def jsReplaceFirst (pat s : String) : String :=
  String.mk (replaceFirstAux pat.data s.data)

def isDigitCh (c : Char) : Bool :=
  48 ≤ c.toNat && c.toNat ≤ 57

def digitsVal (cs : List Char) : Option Nat :=
  let ds := cs.takeWhile isDigitCh
  if ds.isEmpty then none
  else some (ds.foldl (fun a c => a * 10 + (c.toNat - 48)) 0)

/-- JS `parseInt(s, 10)`: skip leading whitespace, optional sign, then the
longest decimal-digit run; `none` models NaN. -/
def parseIntJs (s : String) : Option Int :=
  match s.data.dropWhile jsWsChar with
  | [] => none
  | c :: rest =>
      if c.toNat = 45 then (digitsVal rest).map (fun n => -(n : Int))
      else if c.toNat = 43 then (digitsVal rest).map (fun n => (n : Int))
      else (digitsVal (c :: rest)).map (fun n => (n : Int))

/- ------------------------------------------------------------------ -/
/- querystring.stringify                                              -/
/- ------------------------------------------------------------------ -/

def hexDig (n : Nat) : Char :=
  Char.ofNat (if n < 10 then 48 + n else 55 + n)

/-- UTF-8 bytes of a code point. -/
def utf8Bytes (n : Nat) : List Nat :=
  if n < 0x80 then [n]
  else if n < 0x800 then [0xC0 + n / 64, 0x80 + n % 64]
  else if n < 0x10000 then
    [0xE0 + n / 4096, 0x80 + (n / 64) % 64, 0x80 + n % 64]
  else
    [0xF0 + n / 262144, 0x80 + (n / 4096) % 64, 0x80 + (n / 64) % 64,
     0x80 + n % 64]

def pctByte (b : Nat) : List Char :=
  [Char.ofNat 37, hexDig (b / 16), hexDig (b % 16)]

/-- `encodeURIComponent` unreserved set: alphanumerics and `-_.!~*'()`. -/
def unreservedChar (c : Char) : Bool :=
  let n := c.toNat
  (48 ≤ n && n ≤ 57) || (65 ≤ n && n ≤ 90) || (97 ≤ n && n ≤ 122) ||
  n = 45 || n = 95 || n = 46 || n = 33 || n = 126 || n = 42 || n = 39 ||
  n = 40 || n = 41

def escList : List Char → List Char
  | [] => []
  | c :: cs =>
      (if unreservedChar c then [c] else (utf8Bytes c.toNat).foldr (fun b acc => pctByte b ++ acc) []) ++
      escList cs

/-- `querystring.escape` (= `encodeURIComponent`). -/
def esc (s : String) : String :=
  String.mk (escList s.data)

/-- `qs.stringify(requestOptions.qs)`: the parameter object's properties in
insertion order.  The defaults object declares `maxResults, startIndex,
langRestrict, printType`; the `extend` of source line 70 appends `q` at the
end the first time and keeps positions afterwards. -/
def qsStringify (p : QueryParams) : String :=
  "maxResults=" ++ esc (toString p.maxResults) ++
  "&startIndex=" ++ esc (toString p.startIndex) ++
  "&langRestrict=" ++ esc p.langRestrict ++
  "&printType=" ++ esc p.printType ++
  (match p.q with
   | none => ""
   | some q => "&q=" ++ esc q)

/- ------------------------------------------------------------------ -/
/- Requests, transport, cache                                         -/
/- ------------------------------------------------------------------ -/

/-- The `requestOptions` value handed to `request.get` (`json: true` is
constant and omitted). -/
structure RequestOptions where
  uri : String
  qs : QueryParams
  deriving DecidableEq

/-- `requestOptions.uri + '?' + qs.stringify(requestOptions.qs)`: both the
cache key (source line 82) and, up to the request library's equivalent
serialisation, the URL of the GET actually placed on the wire. -/
def wireUrl (r : RequestOptions) : String :=
  r.uri ++ "?" ++ qsStringify r.qs

/-- The opaque HTTP transport: one GET, returning a decoded body or a
transport error. -/
def Transport (β : Type) : Type :=
  RequestOptions → Except String β

/-- Errors surfaced through the node callback. -/
inductive JsError
  | invalidQuery
  | invalidIdentifier
  | missingField
  | unsupportedField
  | typeErr
  | transportErr (msg : String)
  deriving DecidableEq

/-- Per-call options of `searchSingle`/`search`.  `startIndex` may be absent
or non-numeric (`notNum`), matching `_.isNumber`'s check. -/
inductive JsNumOpt
  | num (n : Int)
  | notNum
  deriving DecidableEq

/-- The `sets` option as a JS value: absent/null, a number, or a string. -/
inductive SetsVal
  | undef
  | num (n : Int)
  | str (s : String)
  deriving DecidableEq

structure SearchOptions where
  query : Option String := none
  startIndex : JsNumOpt := .notNum
  sets : SetsVal := .undef
  deriving DecidableEq

structure ByOptions where
  query : Option String := none
  field : Option String := none
  deriving DecidableEq

/-- Output of one `searchSingle` call: callback outcome, the client state
after the call, and the GET requests issued to the transport. -/
structure StepOut (β : Type) where
  result : Except JsError β
  state : ClientState β
  trace : List RequestOptions
  deriving DecidableEq

/-- Output of `search`/`searchBy`. -/
structure RunOut (β : Type) where
  result : Except JsError (List β)
  state : ClientState β
  trace : List RequestOptions
  deriving DecidableEq

variable {β : Type}

/-- `if (!_.isNumber(options.startIndex) || options.startIndex < 0)
options.startIndex = 0` (source lines 64-66). -/
def normStart : JsNumOpt → Int
  | .num n => if n < 0 then 0 else n
  | .notNum => 0

/-- The in-place `extend(settings.queryParams, {q: ..., startIndex: ...})` of
source line 70. -/
def extendQs (p : QueryParams) (q : String) (si : Int) : QueryParams :=
  { p with q := some q, startIndex := si }

/-- Effect of source line 70 on the whole settings record. -/
def mutSettings (s : Settings) (q : String) (si : Int) : Settings :=
  { s with queryParams := extendQs s.queryParams q si }

/-- `options.query.replace('id:', '').replace('"', '')` (source line 77):
each `replace` removes only the first occurrence. -/
def idOf (q : String) : String :=
  jsReplaceFirst "\"" (jsReplaceFirst "id:" q)

/-- The request URI: the identifier resource when the query starts with
`id:`, the search endpoint otherwise (source lines 69, 80). -/
def uriOf (s : Settings) (q : String) : String :=
  if idColonAtStart q then s.apiUrl ++ "/" ++ idOf q else s.apiUrl

/-- The query starts with `id:` and the extracted identifier fails
`check(id).notNull().notEmpty()` (source line 78). -/
def idBlankOf (q : String) : Bool :=
  idColonAtStart q && blankStr (idOf q)

/-- memoizee entry validity: `maxAge: 0` is falsy (never expires), otherwise
an entry is gone `maxAge` ticks after insertion. -/
def cacheValid (co : CacheOptions) (now stored : Nat) : Bool :=
  co.maxAge = 0 || ((now : Int) < (stored : Int) + co.maxAge)

def cacheFind (co : CacheOptions) (key : String) (now : Nat) :
    List (CacheEntry β) → Option (Except String β)
  | [] => none
  | e :: es =>
      if e.key = key then
        if cacheValid co now e.storedAt then some e.value
        else cacheFind co key now es
      else cacheFind co key now es

/-- `searchCache(fullUri, requestOptions, cb)` (source lines 82-96): the
cache is created lazily (`searchCache = searchCache || memoize(...)`), keyed
on `fullUri` (`length: 1`); on a miss `request.get` is issued and the
callback's outcome (body or error) is stored. -/
def runCached (T : Transport β) (st : ClientState β) (req : RequestOptions)
    (now : Nat) : StepOut β :=
  match cacheFind st.settings.cacheOptions (wireUrl req) now (st.cache.getD []) with
  | some (.ok b) => ⟨.ok b, ⟨st.settings, some (st.cache.getD [])⟩, []⟩
  | some (.error e) =>
      ⟨.error (.transportErr e), ⟨st.settings, some (st.cache.getD [])⟩, []⟩
  | none =>
      match T req with
      | .ok b =>
          ⟨.ok b,
           ⟨st.settings, some (⟨wireUrl req, now, .ok b⟩ :: st.cache.getD [])⟩,
           [req]⟩
      | .error e =>
          ⟨.error (.transportErr e),
           ⟨st.settings, some (⟨wireUrl req, now, .error e⟩ :: st.cache.getD [])⟩,
           [req]⟩

/-- `searchSingle` (source lines 55-100).  Order matters and is preserved:
query validation (line 60), the `settings.logger.log` call (line 62, a
TypeError on the default logger), start-index normalisation (64-66), the
mutating extend (70), the `id:` branch with its identifier check (76-81),
then the cache/transport round trip. -/
def searchSingle (T : Transport β) (st : ClientState β) (o : SearchOptions)
    (now : Nat) : StepOut β :=
  match o.query with
  | none => ⟨.error .invalidQuery, st, []⟩
  | some q =>
      if blankStr q then ⟨.error .invalidQuery, st, []⟩
      else if loggerOk st.settings.logger = false then ⟨.error .typeErr, st, []⟩
      else
        let si := normStart o.startIndex
        let s1 := mutSettings st.settings q si
        if idBlankOf q then ⟨.error .invalidIdentifier, ⟨s1, st.cache⟩, []⟩
        else runCached T ⟨s1, st.cache⟩ ⟨uriOf st.settings q, s1.queryParams⟩ now

/-- `sets = options.sets || settings.setsToFetch`: JS falsiness of the
`sets` option (undefined/null, `0`, `''`). -/
def jsFalsySets : SetsVal → Bool
  | .undef => true
  | .num n => n = 0
  | .str s => s = ""

/-- JS `String(x)` for the sets value, as `sanitize(x).toInt()` coerces. -/
def setsValToString : SetsVal → String
  | .undef => "undefined"
  | .num n => toString n
  | .str s => s

/-- `sanitize(sets).toInt()` = `parseInt(String(sets), 10)`. -/
def sanitizeToInt (v : SetsVal) : Option Int :=
  parseIntJs (setsValToString v)

/-- The `async.series` job list (source lines 114-135): page `i` runs
`searchSingle` on a copy of the options with `startIndex = 40 * i`;
execution is strictly sequential and stops at the first error, whose value
is passed through unchanged; on success the bodies are collected in fetch
order. -/
def searchPages (T : Transport β) (o : SearchOptions) (now : Nat) :
    Nat → Nat → ClientState β → RunOut β
  | 0, _, st => ⟨.ok [], st, []⟩
  | k + 1, i, st =>
      match searchSingle T st { o with startIndex := .num (40 * (i : Int)) } now with
      | ⟨.error e, st1, tr⟩ => ⟨.error e, st1, tr⟩
      | ⟨.ok b, st1, tr⟩ =>
          match searchPages T o now k (i + 1) st1 with
          | ⟨r, st2, tr2⟩ => ⟨r.map (fun l => b :: l), st2, tr ++ tr2⟩

/-- `search` (source lines 109-137).  `for (i = 0; i < sets; i++)` runs zero
times when the sanitised count is NaN (`none`) or non-positive; the final
callback copies the results list unchanged. -/
def search (T : Transport β) (st : ClientState β) (o : SearchOptions)
    (now : Nat) : RunOut β :=
  let sv := if jsFalsySets o.sets then SetsVal.num st.settings.setsToFetch else o.sets
  let count :=
    match sanitizeToInt sv with
    | none => 0
    | some n => n.toNat
  searchPages T o now count 0 st

/-- The own properties of the `fields` object literal (source lines 149-158). -/
def fieldsOwn (f : String) : Option String :=
  if f = "title" then some "intitle:"
  else if f = "author" then some "inauthor:"
  else if f = "publisher" then some "inpublisher:"
  else if f = "subject" then some "subject:"
  else if f = "isbn" then some "isbn:"
  else if f = "lccn" then some "lccn:"
  else if f = "oclc" then some "oclc:"
  else if f = "id" then some "id:"
  else none

/-- JS property access `fields[options.field]` also reaches the inherited
members of `Object.prototype`; every one of them is a function or object,
hence truthy, so `!fields[options.field]` does NOT reject these names. -/
def objectProtoKey (f : String) : Bool :=
  f = "constructor" || f = "toString" || f = "toLocaleString" ||
  f = "valueOf" || f = "hasOwnProperty" || f = "isPrototypeOf" ||
  f = "propertyIsEnumerable" || f = "__proto__" || f = "__defineGetter__" ||
  f = "__defineSetter__" || f = "__lookupGetter__" || f = "__lookupSetter__"

/-- Validation and query construction of `searchBy` (source lines 159-168),
up to the delegation to `search`.  `hostStr` is the engine-defined
stringification `'' + fields[f]` of an inherited `Object.prototype` member
(`Function.prototype.toString` output is host-defined). -/
def searchByChecked (hostStr : String → String) (o : ByOptions) :
    Except JsError String :=
  if checkNotNullNotEmpty o.query = false then .error .invalidQuery
  else if checkNotNull o.field = false then .error .missingField
  else
    let f := o.field.getD ""
    let v := o.query.getD ""
    match fieldsOwn f with
    | some pfx => .ok (pfx ++ "\"" ++ v ++ "\"")
    | none =>
        if objectProtoKey f then .ok (hostStr f ++ "\"" ++ v ++ "\"")
        else .error .unsupportedField

/-- `searchBy` (source lines 145-172): validation, the `settings.logger.log`
call (line 165), then delegation to `search` with ONLY the built query (no
`sets`, no `startIndex`). -/
def searchBy (hostStr : String → String) (T : Transport β)
    (st : ClientState β) (o : ByOptions) (now : Nat) : RunOut β :=
  match searchByChecked hostStr o with
  | .error e => ⟨.error e, st, []⟩
  | .ok q =>
      if loggerOk st.settings.logger = false then ⟨.error .typeErr, st, []⟩
      else search T st { query := some q } now

/- ------------------------------------------------------------------ -/
/- Concrete objects used by witnesses and counterexamples             -/
/- ------------------------------------------------------------------ -/

/-- A transport that always succeeds with body `0`. -/
def T0 : Transport Nat := fun _ => .ok 0

/-- A transport that fails exactly on the page at start index 40. -/
def T1 : Transport Nat :=
  fun r => if r.qs.startIndex = 40 then .error "boom" else .ok 7

/-- A client with default settings except for a working (console-like)
logger.  (On an all-default client every `searchSingle` call dies with a
TypeError at `settings.logger.log`, because the default logger is the bare
function `function () {}`.) -/
def clientL : ClientState Nat :=
  GoogleBooks { logger := some .withLog }

/-- Host stringification stand-in for inherited prototype members. -/
def hostStr0 : String → String := fun _ => ""

/-- Documentation of the default-logger TypeError noted above. -/
theorem default_logger_typeerror :
    (searchSingle T0 (GoogleBooks {}) { query := some "a" } 0).result =
      .error .typeErr := by
  decide

/- ------------------------------------------------------------------ -/
/- Helper lemmas                                                      -/
/- ------------------------------------------------------------------ -/

theorem extendQs_extendQs (p : QueryParams) (q q' : String) (a b : Int) :
    extendQs (extendQs p q a) q' b = extendQs p q' b := rfl

theorem mutSettings_mutSettings (s : Settings) (q q' : String) (a b : Int) :
    mutSettings (mutSettings s q a) q' b = mutSettings s q' b := rfl

theorem mutSettings_apiUrl (s : Settings) (q : String) (si : Int) :
    (mutSettings s q si).apiUrl = s.apiUrl := rfl

theorem mutSettings_logger (s : Settings) (q : String) (si : Int) :
    (mutSettings s q si).logger = s.logger := rfl

theorem mutSettings_cacheOptions (s : Settings) (q : String) (si : Int) :
    (mutSettings s q si).cacheOptions = s.cacheOptions := rfl

theorem uriOf_mutSettings (s : Settings) (q q' : String) (si : Int) :
    uriOf (mutSettings s q' si) q = uriOf s q := rfl

/-- The request a valid single-page call hands to the cache layer. -/
def pageReq (s : Settings) (q : String) (si : Int) : RequestOptions :=
  ⟨uriOf s q, extendQs s.queryParams q si⟩

theorem pageReq_mutSettings (s : Settings) (q q' : String) (a si : Int) :
    pageReq (mutSettings s q' a) q si = pageReq s q si := rfl

theorem pageReq_startIndex (s : Settings) (q : String) (si : Int) :
    (pageReq s q si).qs.startIndex = si := rfl

/-- On a valid, logger-working call, `searchSingle` is the cache/transport
round trip on the request built from the (mutated) settings. -/
theorem searchSingle_step (T : Transport β) (st : ClientState β)
    (q : String) (v : JsNumOpt) (sv : SetsVal) (now : Nat)
    (hq : blankStr q = false) (hl : loggerOk st.settings.logger = true)
    (hid : idBlankOf q = false) :
    searchSingle T st ⟨some q, v, sv⟩ now =
      runCached T ⟨mutSettings st.settings q (normStart v), st.cache⟩
        (pageReq st.settings q (normStart v)) now := by
  simp [searchSingle, hq, hl, hid, mutSettings, pageReq]

theorem searchSingle_sets_irrel (T : Transport β) (st : ClientState β)
    (qq : Option String) (v : JsNumOpt) (s1 s2 : SetsVal) (now : Nat) :
    searchSingle T st ⟨qq, v, s1⟩ now = searchSingle T st ⟨qq, v, s2⟩ now := rfl

/-- The projection of the settings that source line 70 does NOT touch. -/
def preservedPart (s : Settings) :
    Int × String × String × CacheOptions × Int × String × LoggerVal :=
  (s.queryParams.maxResults, s.queryParams.langRestrict,
   s.queryParams.printType, s.cacheOptions, s.setsToFetch, s.apiUrl, s.logger)

theorem preservedPart_mutSettings (s : Settings) (q : String) (si : Int) :
    preservedPart (mutSettings s q si) = preservedPart s := rfl

theorem runCached_settings (T : Transport β) (st : ClientState β)
    (req : RequestOptions) (now : Nat) :
    (runCached T st req now).state.settings = st.settings := by
  unfold runCached
  split
  · rfl
  · rfl
  · split <;> rfl

theorem searchSingle_preserves (T : Transport β) (st : ClientState β)
    (o : SearchOptions) (now : Nat) :
    preservedPart (searchSingle T st o now).state.settings =
      preservedPart st.settings := by
  unfold searchSingle
  cases o.query with
  | none => rfl
  | some q =>
      by_cases hq : blankStr q = true
      · simp [hq]
      · simp only [Bool.not_eq_true] at hq
        by_cases hl : loggerOk st.settings.logger = false
        · simp [hq, hl]
        · simp only [Bool.not_eq_false] at hl
          by_cases hid : idBlankOf q = true
          · simp [hq, hl, hid, preservedPart_mutSettings]
          · simp only [Bool.not_eq_true] at hid
            simp [hq, hl, hid, runCached_settings, preservedPart_mutSettings]

theorem searchPages_preserves (T : Transport β) (o : SearchOptions)
    (now : Nat) :
    ∀ (count i : Nat) (st : ClientState β),
      preservedPart (searchPages T o now count i st).state.settings =
        preservedPart st.settings := by
  intro count
  induction count with
  | zero => intro i st; rfl
  | succ k ih =>
      intro i st
      unfold searchPages
      rcases hout : searchSingle T st { o with startIndex := .num (40 * (i : Int)) } now with
        ⟨res, st1, tr⟩
      have hpre : preservedPart st1.settings = preservedPart st.settings := by
        have := searchSingle_preserves T st
          { o with startIndex := .num (40 * (i : Int)) } now
        rw [hout] at this
        exact this
      cases res with
      | error e => simpa using hpre
      | ok b =>
          rcases hrest : searchPages T o now k (i + 1) st1 with ⟨r, st2, tr2⟩
          have h2 := ih (i + 1) st1
          rw [hrest] at h2
          simp only []
          rw [hrest]
          simp only []
          rw [h2]
          exact hpre

theorem search_preserves (T : Transport β) (st : ClientState β)
    (o : SearchOptions) (now : Nat) :
    preservedPart (search T st o now).state.settings =
      preservedPart st.settings := by
  unfold search
  exact searchPages_preserves ..

theorem searchBy_preserves (hostStr : String → String) (T : Transport β)
    (st : ClientState β) (o : ByOptions) (now : Nat) :
    preservedPart (searchBy hostStr T st o now).state.settings =
      preservedPart st.settings := by
  unfold searchBy
  cases searchByChecked hostStr o with
  | error e => rfl
  | ok q =>
      by_cases hl : loggerOk st.settings.logger = false
      · simp [hl]
      · simp only [Bool.not_eq_false] at hl
        simp [hl, search_preserves]

/- ------------------------------------------------------------------ -/
/- C1                                                                 -/
/- ------------------------------------------------------------------ -/

/-- C1, counterexample.  The claim says every field of the settings record —
the nested default query parameters included — has the same value before and
after any call to the single-page fetcher.  But source line 70 runs
`extend(settings.queryParams, {q: ..., startIndex: ...})`, which mutates the
shared settings object in place: after one fetch at start index 7 the
client's `settings.queryParams.startIndex` is 7, no longer the default 0. -/
theorem c1_counterexample :
    (searchSingle T0 clientL ⟨some "a", .num 7, .undef⟩ 0).state.settings.queryParams.startIndex ≠
      clientL.settings.queryParams.startIndex := by
  decide

/-- C1, amended: only the two fields written by source line 70 —
`queryParams.q` and `queryParams.startIndex` — can change; every other
settings field (`maxResults`, `langRestrict`, `printType`, the cache
options, `setsToFetch`, `apiUrl`, the logger) keeps its value across any
call to `search`, `searchBy`, or the single-page fetcher. -/
theorem c1_amended (hostStr : String → String) (T : Transport β)
    (st : ClientState β) (o : SearchOptions) (ob : ByOptions) (now : Nat) :
    preservedPart (searchSingle T st o now).state.settings = preservedPart st.settings ∧
    preservedPart (search T st o now).state.settings = preservedPart st.settings ∧
    preservedPart (searchBy hostStr T st ob now).state.settings = preservedPart st.settings :=
  ⟨searchSingle_preserves T st o now, search_preserves T st o now,
   searchBy_preserves hostStr T st ob now⟩

/- ------------------------------------------------------------------ -/
/- C9                                                                 -/
/- ------------------------------------------------------------------ -/

/-- C9: a non-numeric page-set count (a truthy string with no leading
integer, e.g. `"abc"`) sanitises to NaN, the page loop `for (i = 0; i < NaN;
...)` runs zero times, no page fetch is issued, and the call succeeds with
the empty list, leaving the client state untouched. -/
theorem c9 (T : Transport β) (st : ClientState β) (o : SearchOptions)
    (s : String) (ho : o.sets = .str s) (hs : s ≠ "")
    (hn : parseIntJs s = none) :
    search T st o now = ⟨.ok [], st, []⟩ := by
  unfold search
  rw [ho]
  simp [jsFalsySets, hs, sanitizeToInt, setsValToString, hn, searchPages]

/-- C9 witness at `sets = "abc"`. -/
theorem c9_witness :
    search T0 clientL ⟨some "a", .notNum, .str "abc"⟩ 0 = ⟨.ok [], clientL, []⟩ :=
  c9 T0 clientL ⟨some "a", .notNum, .str "abc"⟩ "abc" rfl (by decide) (by decide)

/- ------------------------------------------------------------------ -/
/- C10                                                                -/
/- ------------------------------------------------------------------ -/

theorem searchPages_sets_irrel (T : Transport β) (o : SearchOptions)
    (s1 s2 : SetsVal) (now : Nat) :
    ∀ (count i : Nat) (st : ClientState β),
      searchPages T { o with sets := s1 } now count i st =
        searchPages T { o with sets := s2 } now count i st := by
  intro count
  induction count with
  | zero => intro i st; rfl
  | succ k ih =>
      intro i st
      unfold searchPages
      simp only []
      rw [searchSingle_sets_irrel T st o.query (.num (40 * (i : Int))) s1 s2 now]
      rcases h : searchSingle T st ⟨o.query, .num (40 * (i : Int)), s2⟩ now with ⟨res, st1, tr⟩
      cases res with
      | error e => rfl
      | ok b =>
          have h2 := ih (i + 1) st1
          simp only [h2]

/-- C10: a falsy `sets` option (absent/null, `0`, or `''`) makes
`options.sets || settings.setsToFetch` fall back to the configured default
page-set count: the call is indistinguishable from one that passes
`setsToFetch` explicitly. -/
theorem c10 (T : Transport β) (st : ClientState β) (o : SearchOptions)
    (v : SetsVal) (now : Nat) (hv : jsFalsySets v = true) :
    search T st { o with sets := v } now =
      search T st { o with sets := .num st.settings.setsToFetch } now := by
  unfold search
  rw [show ({ o with sets := v } : SearchOptions).sets = v from rfl]
  rw [show ({ o with sets := .num st.settings.setsToFetch } : SearchOptions).sets =
        SetsVal.num st.settings.setsToFetch from rfl]
  rw [hv]
  cases hk : jsFalsySets (SetsVal.num st.settings.setsToFetch) with
  | true =>
      simp only [if_true, if_false, Bool.true_eq_false]
      exact searchPages_sets_irrel ..
  | false =>
      simp only [if_true, if_false, Bool.false_eq_true]
      exact searchPages_sets_irrel ..

/-- C10 witness: `sets = 0` on a default-count client behaves exactly like
`sets = setsToFetch` (= 1), so it does not fetch zero pages. -/
theorem c10_witness :
    search T0 clientL ⟨some "a", .notNum, .num 0⟩ 0 =
      search T0 clientL ⟨some "a", .notNum, .num clientL.settings.setsToFetch⟩ 0 :=
  c10 T0 clientL ⟨some "a", .notNum, .undef⟩ (.num 0) 0 (by decide)

/- ------------------------------------------------------------------ -/
/- Request/key characterisation                                       -/
/- ------------------------------------------------------------------ -/

theorem wireUrl_pageReq (s : Settings) (q : String) (si : Int) :
    wireUrl (pageReq s q si) =
      uriOf s q ++ "?" ++
        ("maxResults=" ++ esc (toString s.queryParams.maxResults) ++
         "&startIndex=" ++ esc (toString si) ++
         "&langRestrict=" ++ esc s.queryParams.langRestrict ++
         "&printType=" ++ esc s.queryParams.printType ++
         ("&q=" ++ esc q)) := by
  simp only [wireUrl, pageReq, qsStringify, extendQs, uriOf]

/-- Two page requests of the same call differ whenever their serialised
start indices differ: the cache keys are distinct. -/
theorem pageKey_ne (s : Settings) (q : String) (a b : Int)
    (h : esc (toString a) ≠ esc (toString b)) :
    wireUrl (pageReq s q a) ≠ wireUrl (pageReq s q b) := by
  intro he
  apply h
  apply String.ext
  rw [wireUrl_pageReq, wireUrl_pageReq] at he
  have hd := congrArg String.data he
  simp only [String.data_append, List.append_assoc] at hd
  have h1 := List.append_cancel_left hd
  have h2 := List.append_cancel_left h1
  have h3 := List.append_cancel_left h2
  have h4 := List.append_cancel_left h3
  have h5 := List.append_cancel_left h4
  exact List.append_cancel_right h5

/- ------------------------------------------------------------------ -/
/- Cache layer characterisation                                       -/
/- ------------------------------------------------------------------ -/

theorem runCached_miss_ok (T : Transport β) (st : ClientState β)
    (req : RequestOptions) (now : Nat) (b : β)
    (hf : cacheFind st.settings.cacheOptions (wireUrl req) now (st.cache.getD []) = none)
    (hT : T req = .ok b) :
    runCached T st req now =
      ⟨.ok b, ⟨st.settings, some (⟨wireUrl req, now, .ok b⟩ :: st.cache.getD [])⟩,
       [req]⟩ := by
  unfold runCached
  rw [hf, hT]

theorem runCached_miss_err (T : Transport β) (st : ClientState β)
    (req : RequestOptions) (now : Nat) (e : String)
    (hf : cacheFind st.settings.cacheOptions (wireUrl req) now (st.cache.getD []) = none)
    (hT : T req = .error e) :
    runCached T st req now =
      ⟨.error (.transportErr e),
       ⟨st.settings, some (⟨wireUrl req, now, .error e⟩ :: st.cache.getD [])⟩,
       [req]⟩ := by
  unfold runCached
  rw [hf, hT]

theorem runCached_hit_ok (T : Transport β) (st : ClientState β)
    (req : RequestOptions) (now : Nat) (b : β)
    (hf : cacheFind st.settings.cacheOptions (wireUrl req) now (st.cache.getD []) =
      some (.ok b)) :
    runCached T st req now = ⟨.ok b, ⟨st.settings, some (st.cache.getD [])⟩, []⟩ := by
  unfold runCached
  rw [hf]

/-- A successful single-page result presupposes: a present, non-blank query,
a working logger, and (for `id:` queries) a non-blank identifier. -/
theorem searchSingle_ok_inv (T : Transport β) (st : ClientState β)
    (o : SearchOptions) (now : Nat) (b : β)
    (h : (searchSingle T st o now).result = .ok b) :
    ∃ q, o.query = some q ∧ blankStr q = false ∧
      loggerOk st.settings.logger = true ∧ idBlankOf q = false := by
  unfold searchSingle at h
  cases hq : o.query with
  | none => rw [hq] at h; exact absurd h (by simp)
  | some q =>
      rw [hq] at h
      by_cases h1 : blankStr q = true
      · simp [h1] at h
      · simp only [Bool.not_eq_true] at h1
        by_cases h2 : loggerOk st.settings.logger = false
        · simp [h1, h2] at h
        · simp only [Bool.not_eq_false] at h2
          by_cases h3 : idBlankOf q = true
          · simp [h1, h2, h3] at h
          · simp only [Bool.not_eq_true] at h3
            exact ⟨q, rfl, h1, h2, h3⟩

/-- `searchPages` unfolding with the options record normalised. -/
theorem searchPages_succ (T : Transport β) (o : SearchOptions) (now k i : Nat)
    (st : ClientState β) :
    searchPages T o now (k + 1) i st =
      match searchSingle T st ⟨o.query, .num (40 * (i : Int)), o.sets⟩ now with
      | ⟨.error e, st1, tr⟩ => ⟨.error e, st1, tr⟩
      | ⟨.ok b, st1, tr⟩ =>
          match searchPages T o now k (i + 1) st1 with
          | ⟨r, st2, tr2⟩ => ⟨r.map (fun l => b :: l), st2, tr ++ tr2⟩ := rfl

/- ------------------------------------------------------------------ -/
/- String facts about `id:` queries                                   -/
/- ------------------------------------------------------------------ -/

theorem strMkData (s : String) : String.mk s.data = s := by
  cases s
  rfl

theorem idStr_data : "id:".data = ['i', 'd', ':'] := rfl

/-- A query of the form `id:` ++ rest is never all-whitespace. -/
theorem blank_id_append (rest : String) : blankStr ("id:" ++ rest) = false := by
  have h1 : ("id:" ++ rest).data = "id:".data ++ rest.data := String.data_append ..
  unfold blankStr
  rw [h1, List.all_append, idStr_data]
  simp [jsWsChar]

theorem idColon_append (rest : String) :
    idColonAtStart ("id:" ++ rest) = true := by
  unfold idColonAtStart
  rw [String.data_append, idStr_data]
  simp [listStarts]

theorem replace_id_append (rest : String) :
    jsReplaceFirst "id:" ("id:" ++ rest) = rest := by
  unfold jsReplaceFirst
  rw [String.data_append, idStr_data]
  simp [replaceFirstAux, listStarts, strMkData]

theorem idOf_append (rest : String) :
    idOf ("id:" ++ rest) = jsReplaceFirst "\"" rest := by
  unfold idOf
  rw [replace_id_append]

theorem idBlank_append (rest : String) :
    idBlankOf ("id:" ++ rest) = blankStr (jsReplaceFirst "\"" rest) := by
  unfold idBlankOf
  rw [idColon_append, idOf_append]
  simp

theorem uriOf_append (s : Settings) (rest : String) :
    uriOf s ("id:" ++ rest) = s.apiUrl ++ "/" ++ jsReplaceFirst "\"" rest := by
  unfold uriOf
  rw [idColon_append, idOf_append]
  simp

/- ------------------------------------------------------------------ -/
/- Single page on a fresh cache                                       -/
/- ------------------------------------------------------------------ -/

theorem cacheFind_nil (co : CacheOptions) (key : String) (now : Nat) :
    cacheFind co key now ([] : List (CacheEntry β)) = none := rfl

/-- Valid single-page call on a fresh cache: the transport is consulted once
with the page request, whatever its outcome. -/
theorem searchSingle_fresh_trace (T : Transport β) (st : ClientState β)
    (q : String) (si : JsNumOpt) (sv : SetsVal) (now : Nat)
    (hq : blankStr q = false) (hl : loggerOk st.settings.logger = true)
    (hid : idBlankOf q = false) (hc : st.cache = none) :
    (searchSingle T st ⟨some q, si, sv⟩ now).trace =
      [pageReq st.settings q (normStart si)] := by
  rw [searchSingle_step T st q si sv now hq hl hid]
  unfold runCached
  simp only [hc, Option.getD_none, cacheFind_nil]
  cases T (pageReq st.settings q (normStart si)) <;> rfl

/-- Valid single-page call on a fresh cache whose transport succeeds:
result, state mutation and trace, fully explicit. -/
theorem searchSingle_fresh_ok (T : Transport β) (st : ClientState β)
    (q : String) (si : JsNumOpt) (sv : SetsVal) (now : Nat) (b : β)
    (hq : blankStr q = false) (hl : loggerOk st.settings.logger = true)
    (hid : idBlankOf q = false) (hc : st.cache = none)
    (hT : T (pageReq st.settings q (normStart si)) = .ok b) :
    searchSingle T st ⟨some q, si, sv⟩ now =
      ⟨.ok b,
       ⟨mutSettings st.settings q (normStart si),
        some [⟨wireUrl (pageReq st.settings q (normStart si)), now, .ok b⟩]⟩,
       [pageReq st.settings q (normStart si)]⟩ := by
  rw [searchSingle_step T st q si sv now hq hl hid]
  unfold runCached
  simp only [hc, Option.getD_none, cacheFind_nil, hT]

/- ------------------------------------------------------------------ -/
/- C2                                                                 -/
/- ------------------------------------------------------------------ -/

/-- C2, counterexample.  The claim says ALL quote characters are stripped
from the identifier, so `id:"X"` should target `<apiUrl>/X`.  But
`.replace('"', '')` with a string pattern removes only the FIRST quote: the
fetcher actually targets `<apiUrl>/X"` (trailing quote kept), which differs
from `<apiUrl>/X`. -/
theorem c2_counterexample :
    (searchSingle T0 clientL ⟨some "id:\"X\"", .notNum, .undef⟩ 0).trace.map
        RequestOptions.uri =
      ["https://www.googleapis.com/books/v1/volumes/X\""] ∧
    ("https://www.googleapis.com/books/v1/volumes/X\"" : String) ≠
      "https://www.googleapis.com/books/v1/volumes/X" := by
  decide

/-- C2, amended: for a query `id:` ++ rest, the identifier is rest with only
the FIRST quote character removed; if that identifier is blank
(empty/whitespace-only) the call fails with `InvalidIdentifier` and no
request is issued, otherwise the single request targets
`<apiUrl>/<identifier>`. -/
theorem c2_amended (T : Transport β) (st : ClientState β) (rest : String)
    (now : Nat) (hl : loggerOk st.settings.logger = true)
    (hc : st.cache = none) :
    (blankStr (jsReplaceFirst "\"" rest) = true →
      (searchSingle T st ⟨some ("id:" ++ rest), .notNum, .undef⟩ now).result =
          .error .invalidIdentifier ∧
      (searchSingle T st ⟨some ("id:" ++ rest), .notNum, .undef⟩ now).trace = []) ∧
    (blankStr (jsReplaceFirst "\"" rest) = false →
      (searchSingle T st ⟨some ("id:" ++ rest), .notNum, .undef⟩ now).trace.map
          RequestOptions.uri =
        [st.settings.apiUrl ++ "/" ++ jsReplaceFirst "\"" rest]) := by
  constructor
  · intro hb
    have hid : idBlankOf ("id:" ++ rest) = true := by
      rw [idBlank_append, hb]
    unfold searchSingle
    simp [blank_id_append, hl, hid]
  · intro hb
    have hid : idBlankOf ("id:" ++ rest) = false := by
      rw [idBlank_append, hb]
    rw [searchSingle_fresh_trace T st ("id:" ++ rest) .notNum .undef now
      (blank_id_append rest) hl hid hc]
    simp [pageReq, uriOf_append]

/-- C2 witness at `rest = "ab"` (so the query is `id:"ab"`): the identifier
keeps its trailing quote. -/
theorem c2_amended_witness :
    (searchSingle T0 clientL ⟨some ("id:" ++ "\"ab\""), .notNum, .undef⟩ 0).trace.map
        RequestOptions.uri =
      [clientL.settings.apiUrl ++ "/" ++ jsReplaceFirst "\"" "\"ab\""] :=
  (c2_amended T0 clientL "\"ab\"" 0 rfl rfl).2 (by decide)

/- ------------------------------------------------------------------ -/
/- C3                                                                 -/
/- ------------------------------------------------------------------ -/

/-- C3, counterexample.  The claim says the identifier request carries no
query parameters.  But line 68 installs `requestOptions.qs` before the `id:`
branch, and the branch only overwrites `requestOptions.uri`: the issued
request still carries the full merged parameter set (`q` included), and the
URL the HTTP layer builds from it is not the bare `<apiUrl>/x`. -/
theorem c3_counterexample :
    (searchSingle T0 clientL ⟨some "id:x", .notNum, .undef⟩ 0).trace =
      [⟨"https://www.googleapis.com/books/v1/volumes/x",
        ⟨40, 0, "en", "books", some "id:x"⟩⟩] ∧
    wireUrl ⟨"https://www.googleapis.com/books/v1/volumes/x",
        ⟨40, 0, "en", "books", some "id:x"⟩⟩ ≠
      "https://www.googleapis.com/books/v1/volumes/x" := by
  decide

/-- C3, amended: on an `id:` query the request URI is `<apiUrl>/<id>` —
the identifier path replaces the search endpoint — but the merged query
parameters (the defaults with `q` and the normalised start index) remain
attached to the issued request. -/
theorem c3_amended (T : Transport β) (st : ClientState β) (rest : String)
    (si : JsNumOpt) (now : Nat) (hl : loggerOk st.settings.logger = true)
    (hc : st.cache = none)
    (hid : blankStr (jsReplaceFirst "\"" rest) = false) :
    (searchSingle T st ⟨some ("id:" ++ rest), si, .undef⟩ now).trace =
      [⟨st.settings.apiUrl ++ "/" ++ jsReplaceFirst "\"" rest,
        extendQs st.settings.queryParams ("id:" ++ rest) (normStart si)⟩] := by
  have hid' : idBlankOf ("id:" ++ rest) = false := by
    rw [idBlank_append, hid]
  rw [searchSingle_fresh_trace T st ("id:" ++ rest) si .undef now
    (blank_id_append rest) hl hid' hc]
  rw [show pageReq st.settings ("id:" ++ rest) (normStart si) =
        ⟨uriOf st.settings ("id:" ++ rest),
         extendQs st.settings.queryParams ("id:" ++ rest) (normStart si)⟩ from rfl]
  rw [uriOf_append]

/-- C3 witness at `rest = "x"`, start index 5. -/
theorem c3_amended_witness :
    (searchSingle T0 clientL ⟨some ("id:" ++ "x"), .num 5, .undef⟩ 0).trace =
      [⟨clientL.settings.apiUrl ++ "/" ++ jsReplaceFirst "\"" "x",
        extendQs clientL.settings.queryParams ("id:" ++ "x") (normStart (.num 5))⟩] :=
  c3_amended T0 clientL "x" (.num 5) 0 rfl rfl (by decide)

/- ------------------------------------------------------------------ -/
/- C5                                                                 -/
/- ------------------------------------------------------------------ -/

/-- C5: whenever a page of a multi-page run fails, `async.series` stops at
that page: the run's outcome is exactly that page's error and that page's
trace — no later page fetch is issued, the error is passed through
unchanged, and (the result being an error) no partial list of the
previously fetched bodies is returned.  Stated for the page at position `i`
of any remaining run of `n + 1` pages; by the recursive definition of
`search` this covers the first failing page of every run. -/
theorem c5 (T : Transport β) (o : SearchOptions) (now : Nat) (n i : Nat)
    (st : ClientState β) (e : JsError)
    (hfail : (searchSingle T st ⟨o.query, .num (40 * (i : Int)), o.sets⟩ now).result =
      .error e) :
    searchPages T o now (n + 1) i st =
      ⟨.error e,
       (searchSingle T st ⟨o.query, .num (40 * (i : Int)), o.sets⟩ now).state,
       (searchSingle T st ⟨o.query, .num (40 * (i : Int)), o.sets⟩ now).trace⟩ := by
  rw [searchPages_succ]
  rcases hout : searchSingle T st ⟨o.query, .num (40 * (i : Int)), o.sets⟩ now with
    ⟨res, st1, tr⟩
  rw [hout] at hfail
  simp only [] at hfail
  subst hfail
  rfl

/-- C5 witness: the second of three pages (start index 40) hits the failing
transport `T1`; the remaining run returns exactly that error and that
page's single request — the third page is never attempted. -/
theorem c5_witness :
    searchPages T1 ⟨some "a", .notNum, .num 3⟩ 0 2 1 clientL =
      ⟨.error (.transportErr "boom"),
       (searchSingle T1 clientL ⟨some "a", .num (40 * ((1 : Nat) : Int)), .num 3⟩ 0).state,
       (searchSingle T1 clientL ⟨some "a", .num (40 * ((1 : Nat) : Int)), .num 3⟩ 0).trace⟩ :=
  c5 T1 ⟨some "a", .notNum, .num 3⟩ 0 1 1 clientL (.transportErr "boom") (by decide)

/- ------------------------------------------------------------------ -/
/- C6                                                                 -/
/- ------------------------------------------------------------------ -/

/-- C6: two single-page fetches on the same instance with the same query
and the same normalised start index share the cache key.  If the first
(issued on a fresh cache) succeeds with body `b`, it is the only transport
GET: while its entry is still valid, the second call answers `b` from the
cache and issues no transport call. -/
theorem c6 (T : Transport β) (st : ClientState β) (o1 o2 : SearchOptions)
    (now1 now2 : Nat) (b : β)
    (hc : st.cache = none)
    (hq : o1.query = o2.query)
    (hsi : normStart o1.startIndex = normStart o2.startIndex)
    (h1 : (searchSingle T st o1 now1).result = .ok b)
    (hv : cacheValid st.settings.cacheOptions now2 now1 = true) :
    (searchSingle T st o1 now1).trace.length = 1 ∧
    (searchSingle T (searchSingle T st o1 now1).state o2 now2).result = .ok b ∧
    (searchSingle T (searchSingle T st o1 now1).state o2 now2).trace = [] := by
  obtain ⟨oq1, osi1, osets1⟩ := o1
  obtain ⟨oq2, osi2, osets2⟩ := o2
  obtain ⟨q, hoq, hqb, hl, hid⟩ := searchSingle_ok_inv T st ⟨oq1, osi1, osets1⟩ now1 b h1
  simp only [] at hoq hq hsi
  subst hoq
  subst hq
  -- the first call must have gone to the transport (fresh cache), and
  -- succeeded
  have hT : T (pageReq st.settings q (normStart osi1)) = .ok b := by
    cases hT0 : T (pageReq st.settings q (normStart osi1)) with
    | ok b' =>
        rw [searchSingle_fresh_ok T st q osi1 osets1 now1 b' hqb hl hid hc hT0] at h1
        simp only [] at h1
        injection h1 with hb
        rw [hb]
    | error e =>
        rw [searchSingle_step T st q osi1 osets1 now1 hqb hl hid] at h1
        rw [runCached_miss_err T _ _ now1 e (by rw [show (⟨mutSettings st.settings q (normStart osi1), st.cache⟩ : ClientState β).cache = st.cache from rfl, hc]; rfl) hT0] at h1
        simp at h1
  rw [searchSingle_fresh_ok T st q osi1 osets1 now1 b hqb hl hid hc hT]
  refine ⟨rfl, ?_, ?_⟩ <;>
  · rw [searchSingle_step T _ q osi2 osets2 now2 hqb
      (by rw [show (⟨mutSettings st.settings q (normStart osi1),
          some [⟨wireUrl (pageReq st.settings q (normStart osi1)), now1, .ok b⟩]⟩ :
            ClientState β).settings = mutSettings st.settings q (normStart osi1) from rfl,
        mutSettings_logger]; exact hl) hid]
    rw [show pageReq (⟨mutSettings st.settings q (normStart osi1),
          some [⟨wireUrl (pageReq st.settings q (normStart osi1)), now1, .ok b⟩]⟩ :
            ClientState β).settings q (normStart osi2) =
        pageReq st.settings q (normStart osi1) from by
      rw [show (⟨mutSettings st.settings q (normStart osi1),
          some [⟨wireUrl (pageReq st.settings q (normStart osi1)), now1, .ok b⟩]⟩ :
            ClientState β).settings = mutSettings st.settings q (normStart osi1) from rfl,
        pageReq_mutSettings, ← hsi]]
    rw [runCached_hit_ok T _ _ now2 b (by
      simp only [cacheFind, mutSettings_cacheOptions, Option.getD_some]
      simp [hv])]

/-- C6 witness: same query, one call with an absent start index and one
with an explicit 0 (both normalise to 0): one transport GET, the second
call served from cache. -/
theorem c6_witness :
    (searchSingle T0 clientL ⟨some "a", .notNum, .undef⟩ 0).trace.length = 1 ∧
    (searchSingle T0 (searchSingle T0 clientL ⟨some "a", .notNum, .undef⟩ 0).state
        ⟨some "a", .num 0, .undef⟩ 5).result = .ok 0 ∧
    (searchSingle T0 (searchSingle T0 clientL ⟨some "a", .notNum, .undef⟩ 0).state
        ⟨some "a", .num 0, .undef⟩ 5).trace = [] :=
  c6 T0 clientL ⟨some "a", .notNum, .undef⟩ ⟨some "a", .num 0, .undef⟩ 0 5 0
    rfl rfl (by decide) (by decide) (by decide)

/- ------------------------------------------------------------------ -/
/- C7                                                                 -/
/- ------------------------------------------------------------------ -/

/-- C7, code bug.  The claim (and the source's own intent, per its error
message `Invalid field to search by`) is that any field outside the eight
recognised keys fails with `UnsupportedField` and issues no transport call.
But the guard `!fields[options.field]` uses JS property access on an object
literal, which also reaches the inherited, truthy members of
`Object.prototype`: `searchBy({query: "Tolkien", field: "constructor"})`
passes validation, builds a garbage query from the stringified inherited
function, delegates to `search`, and issues a transport GET. -/
theorem c7_bug :
    searchByChecked hostStr0 ⟨some "Tolkien", some "constructor"⟩ =
      .ok (hostStr0 "constructor" ++ "\"" ++ "Tolkien" ++ "\"") ∧
    (searchBy hostStr0 T0 clientL ⟨some "Tolkien", some "constructor"⟩ 0).trace ≠ [] ∧
    (searchBy hostStr0 T0 clientL ⟨some "Tolkien", some "constructor"⟩ 0).result =
      .ok [0] := by
  decide

/- ------------------------------------------------------------------ -/
/- C8                                                                 -/
/- ------------------------------------------------------------------ -/

/-- C8: for a non-blank value and a recognised field, `searchBy` builds
`<prefix>"<value>"` and delegates to the paginator with exactly that query
text and no explicit page-set count (so the configured default
`setsToFetch` applies): its output is identical to `search` on that text. -/
theorem c8 (hostStr : String → String) (T : Transport β) (st : ClientState β)
    (now : Nat) (v f pfx : String)
    (hv : blankStr v = false) (hf : fieldsOwn f = some pfx)
    (hl : loggerOk st.settings.logger = true) :
    searchByChecked hostStr ⟨some v, some f⟩ = .ok (pfx ++ "\"" ++ v ++ "\"") ∧
    searchBy hostStr T st ⟨some v, some f⟩ now =
      search T st ⟨some (pfx ++ "\"" ++ v ++ "\""), .notNum, .undef⟩ now := by
  have hfne : ¬(f = "") := by
    intro h
    rw [h] at hf
    rw [show fieldsOwn "" = none from rfl] at hf
    exact Option.noConfusion hf
  have hchecked : searchByChecked hostStr ⟨some v, some f⟩ =
      .ok (pfx ++ "\"" ++ v ++ "\"") := by
    unfold searchByChecked
    simp only [checkNotNullNotEmpty, checkNotNull, hv, hfne]
    simp [hf]
  refine ⟨hchecked, ?_⟩
  unfold searchBy
  rw [hchecked]
  simp [hl]

/-- C8 witness: the spec's own example, `inauthor:"Tolkien"`. -/
theorem c8_witness :
    searchByChecked hostStr0 ⟨some "Tolkien", some "author"⟩ =
      .ok ("inauthor:" ++ "\"" ++ "Tolkien" ++ "\"") ∧
    searchBy hostStr0 T0 clientL ⟨some "Tolkien", some "author"⟩ 0 =
      search T0 clientL ⟨some ("inauthor:" ++ "\"" ++ "Tolkien" ++ "\""), .notNum, .undef⟩ 0 :=
  c8 hostStr0 T0 clientL 0 "Tolkien" "author" "inauthor:" (by decide) (by decide) rfl

/- ------------------------------------------------------------------ -/
/- More step lemmas (cache misses on a non-empty cache, page steps)   -/
/- ------------------------------------------------------------------ -/

theorem cacheFind_cons_ne (co : CacheOptions) (key : String) (now : Nat)
    (e : CacheEntry β) (es : List (CacheEntry β)) (hne : e.key ≠ key) :
    cacheFind co key now (e :: es) = cacheFind co key now es := by
  simp only [cacheFind]
  rw [if_neg hne]

theorem searchSingle_fresh_err (T : Transport β) (st : ClientState β)
    (q : String) (si : JsNumOpt) (sv : SetsVal) (now : Nat) (e : String)
    (hq : blankStr q = false) (hl : loggerOk st.settings.logger = true)
    (hid : idBlankOf q = false) (hc : st.cache = none)
    (hT : T (pageReq st.settings q (normStart si)) = .error e) :
    searchSingle T st ⟨some q, si, sv⟩ now =
      ⟨.error (.transportErr e),
       ⟨mutSettings st.settings q (normStart si),
        some [⟨wireUrl (pageReq st.settings q (normStart si)), now, .error e⟩]⟩,
       [pageReq st.settings q (normStart si)]⟩ := by
  rw [searchSingle_step T st q si sv now hq hl hid]
  unfold runCached
  simp only [hc, Option.getD_none, cacheFind_nil, hT]

theorem searchSingle_miss_ok (T : Transport β) (st : ClientState β)
    (q : String) (si : JsNumOpt) (sv : SetsVal) (now : Nat) (b : β)
    (entries : List (CacheEntry β))
    (hq : blankStr q = false) (hl : loggerOk st.settings.logger = true)
    (hid : idBlankOf q = false) (hcache : st.cache = some entries)
    (hfind : cacheFind st.settings.cacheOptions
      (wireUrl (pageReq st.settings q (normStart si))) now entries = none)
    (hT : T (pageReq st.settings q (normStart si)) = .ok b) :
    searchSingle T st ⟨some q, si, sv⟩ now =
      ⟨.ok b,
       ⟨mutSettings st.settings q (normStart si),
        some (⟨wireUrl (pageReq st.settings q (normStart si)), now, .ok b⟩ :: entries)⟩,
       [pageReq st.settings q (normStart si)]⟩ := by
  rw [searchSingle_step T st q si sv now hq hl hid]
  unfold runCached
  simp only [hcache, Option.getD_some, mutSettings_cacheOptions, hfind, hT]

theorem searchSingle_miss_err (T : Transport β) (st : ClientState β)
    (q : String) (si : JsNumOpt) (sv : SetsVal) (now : Nat) (e : String)
    (entries : List (CacheEntry β))
    (hq : blankStr q = false) (hl : loggerOk st.settings.logger = true)
    (hid : idBlankOf q = false) (hcache : st.cache = some entries)
    (hfind : cacheFind st.settings.cacheOptions
      (wireUrl (pageReq st.settings q (normStart si))) now entries = none)
    (hT : T (pageReq st.settings q (normStart si)) = .error e) :
    searchSingle T st ⟨some q, si, sv⟩ now =
      ⟨.error (.transportErr e),
       ⟨mutSettings st.settings q (normStart si),
        some (⟨wireUrl (pageReq st.settings q (normStart si)), now, .error e⟩ :: entries)⟩,
       [pageReq st.settings q (normStart si)]⟩ := by
  rw [searchSingle_step T st q si sv now hq hl hid]
  unfold runCached
  simp only [hcache, Option.getD_some, mutSettings_cacheOptions, hfind, hT]

theorem searchPages_succ_err (T : Transport β) (o : SearchOptions) (now k i : Nat)
    (st : ClientState β) (e : JsError) (st1 : ClientState β) (tr1 : List RequestOptions)
    (hstep : searchSingle T st ⟨o.query, .num (40 * (i : Int)), o.sets⟩ now =
      ⟨.error e, st1, tr1⟩) :
    searchPages T o now (k + 1) i st = ⟨.error e, st1, tr1⟩ := by
  rw [searchPages_succ, hstep]

theorem searchPages_succ_ok (T : Transport β) (o : SearchOptions) (now k i : Nat)
    (st : ClientState β) (b : β) (st1 : ClientState β) (tr1 : List RequestOptions)
    (hstep : searchSingle T st ⟨o.query, .num (40 * (i : Int)), o.sets⟩ now =
      ⟨.ok b, st1, tr1⟩) :
    searchPages T o now (k + 1) i st =
      ⟨(searchPages T o now k (i + 1) st1).result.map (fun l => b :: l),
       (searchPages T o now k (i + 1) st1).state,
       tr1 ++ (searchPages T o now k (i + 1) st1).trace⟩ := by
  rw [searchPages_succ, hstep]

/- ------------------------------------------------------------------ -/
/- C4                                                                 -/
/- ------------------------------------------------------------------ -/

/-- C4: on a fresh client, `search(q, sets = 3)` that succeeds has issued
exactly three page fetches, in trace order 0, 40, 80 — each page's output
state feeds the next page (`async.series` is strictly sequential), and the
schedule ignores the per-call base start index `v` — and the result list is
exactly the three page bodies in fetch order. -/
theorem c4 (T : Transport β) (st : ClientState β) (q : String) (v : JsNumOpt)
    (now : Nat) (l : List β)
    (hq : blankStr q = false) (hc : st.cache = none)
    (hrun : (search T st ⟨some q, v, .num 3⟩ now).result = .ok l) :
    ∃ b0 b1 b2,
      (search T st ⟨some q, v, .num 3⟩ now).trace =
        [pageReq st.settings q 0, pageReq st.settings q 40, pageReq st.settings q 80] ∧
      (pageReq st.settings q 0).qs.startIndex = 0 ∧
      (pageReq st.settings q 40).qs.startIndex = 40 ∧
      (pageReq st.settings q 80).qs.startIndex = 80 ∧
      l = [b0, b1, b2] ∧
      T (pageReq st.settings q 0) = .ok b0 ∧
      T (pageReq st.settings q 40) = .ok b1 ∧
      T (pageReq st.settings q 80) = .ok b2 := by
  have hs : search T st ⟨some q, v, .num 3⟩ now =
      searchPages T ⟨some q, v, .num 3⟩ now 3 0 st := rfl
  have e32 : searchPages T ⟨some q, v, .num 3⟩ now 3 0 st =
      searchPages T ⟨some q, v, .num 3⟩ now (2 + 1) 0 st := rfl
  rcases h0 : searchSingle T st ⟨some q, .num 0, .num 3⟩ now with ⟨res0, stA, tr0⟩
  cases res0 with
  | error e =>
      have hbad := searchPages_succ_err T ⟨some q, v, .num 3⟩ now 2 0 st e stA tr0 h0
      rw [hs, e32, hbad] at hrun
      exact absurd hrun (by simp)
  | ok b0pre =>
      have hres : (searchSingle T st ⟨some q, .num 0, .num 3⟩ now).result = .ok b0pre := by
        rw [h0]
      obtain ⟨q', hq'eq, hqb, hl, hid⟩ :=
        searchSingle_ok_inv T st ⟨some q, .num 0, .num 3⟩ now b0pre hres
      simp only [] at hq'eq
      injection hq'eq with hq'
      subst hq'
      cases hT0 : T (pageReq st.settings q 0) with
      | error e =>
          rw [searchSingle_fresh_err T st q (.num 0) (.num 3) now e hqb hl hid hc hT0] at h0
          exact absurd h0 (by simp)
      | ok b0 =>
          have hp0 : searchSingle T st ⟨some q, .num 0, .num 3⟩ now =
              ⟨.ok b0,
               ⟨mutSettings st.settings q 0,
                some [⟨wireUrl (pageReq st.settings q 0), now, .ok b0⟩]⟩,
               [pageReq st.settings q 0]⟩ :=
            searchSingle_fresh_ok T st q (.num 0) (.num 3) now b0 hqb hl hid hc hT0
          have hpage0 := searchPages_succ_ok T ⟨some q, v, .num 3⟩ now 2 0 st b0
            ⟨mutSettings st.settings q 0,
             some [⟨wireUrl (pageReq st.settings q 0), now, .ok b0⟩]⟩
            [pageReq st.settings q 0] hp0
          have hk01 : wireUrl (pageReq st.settings q 0) ≠ wireUrl (pageReq st.settings q 40) :=
            pageKey_ne st.settings q 0 40 (by decide)
          have hk02 : wireUrl (pageReq st.settings q 0) ≠ wireUrl (pageReq st.settings q 80) :=
            pageKey_ne st.settings q 0 80 (by decide)
          have hk12 : wireUrl (pageReq st.settings q 40) ≠ wireUrl (pageReq st.settings q 80) :=
            pageKey_ne st.settings q 40 80 (by decide)
          have e21 : searchPages T ⟨some q, v, .num 3⟩ now 2 (0 + 1)
                ⟨mutSettings st.settings q 0,
                 some [⟨wireUrl (pageReq st.settings q 0), now, .ok b0⟩]⟩ =
              searchPages T ⟨some q, v, .num 3⟩ now (1 + 1) (0 + 1)
                ⟨mutSettings st.settings q 0,
                 some [⟨wireUrl (pageReq st.settings q 0), now, .ok b0⟩]⟩ := rfl
          cases hT1 : T (pageReq st.settings q 40) with
          | error e =>
              have hp1 : searchSingle T
                  ⟨mutSettings st.settings q 0,
                   some [⟨wireUrl (pageReq st.settings q 0), now, .ok b0⟩]⟩
                  ⟨some q, .num 40, .num 3⟩ now =
                  ⟨.error (.transportErr e),
                   ⟨mutSettings st.settings q 40,
                    some [⟨wireUrl (pageReq st.settings q 40), now, .error e⟩,
                          ⟨wireUrl (pageReq st.settings q 0), now, .ok b0⟩]⟩,
                   [pageReq st.settings q 40]⟩ :=
                searchSingle_miss_err T _ q (.num 40) (.num 3) now e
                  [⟨wireUrl (pageReq st.settings q 0), now, .ok b0⟩]
                  hqb hl hid rfl
                  ((cacheFind_cons_ne _ _ _ _ _ hk01).trans (cacheFind_nil _ _ _))
                  hT1
              have hX : searchPages T ⟨some q, v, .num 3⟩ now 2 (0 + 1)
                  ⟨mutSettings st.settings q 0,
                   some [⟨wireUrl (pageReq st.settings q 0), now, .ok b0⟩]⟩ =
                  ⟨.error (.transportErr e),
                   ⟨mutSettings st.settings q 40,
                    some [⟨wireUrl (pageReq st.settings q 40), now, .error e⟩,
                          ⟨wireUrl (pageReq st.settings q 0), now, .ok b0⟩]⟩,
                   [pageReq st.settings q 40]⟩ := by
                rw [e21]
                exact searchPages_succ_err T ⟨some q, v, .num 3⟩ now 1 (0 + 1) _ _ _ _ hp1
              rw [hs, e32, hpage0, hX] at hrun
              exact absurd hrun (by simp [Except.map])
          | ok b1 =>
              have hp1 : searchSingle T
                  ⟨mutSettings st.settings q 0,
                   some [⟨wireUrl (pageReq st.settings q 0), now, .ok b0⟩]⟩
                  ⟨some q, .num 40, .num 3⟩ now =
                  ⟨.ok b1,
                   ⟨mutSettings st.settings q 40,
                    some [⟨wireUrl (pageReq st.settings q 40), now, .ok b1⟩,
                          ⟨wireUrl (pageReq st.settings q 0), now, .ok b0⟩]⟩,
                   [pageReq st.settings q 40]⟩ :=
                searchSingle_miss_ok T _ q (.num 40) (.num 3) now b1
                  [⟨wireUrl (pageReq st.settings q 0), now, .ok b0⟩]
                  hqb hl hid rfl
                  ((cacheFind_cons_ne _ _ _ _ _ hk01).trans (cacheFind_nil _ _ _))
                  hT1
              have hpage1 := searchPages_succ_ok T ⟨some q, v, .num 3⟩ now 1 (0 + 1)
                ⟨mutSettings st.settings q 0,
                 some [⟨wireUrl (pageReq st.settings q 0), now, .ok b0⟩]⟩ b1
                ⟨mutSettings st.settings q 40,
                 some [⟨wireUrl (pageReq st.settings q 40), now, .ok b1⟩,
                       ⟨wireUrl (pageReq st.settings q 0), now, .ok b0⟩]⟩
                [pageReq st.settings q 40] hp1
              have e10 : searchPages T ⟨some q, v, .num 3⟩ now 1 ((0 + 1) + 1)
                    ⟨mutSettings st.settings q 40,
                     some [⟨wireUrl (pageReq st.settings q 40), now, .ok b1⟩,
                           ⟨wireUrl (pageReq st.settings q 0), now, .ok b0⟩]⟩ =
                  searchPages T ⟨some q, v, .num 3⟩ now (0 + 1) ((0 + 1) + 1)
                    ⟨mutSettings st.settings q 40,
                     some [⟨wireUrl (pageReq st.settings q 40), now, .ok b1⟩,
                           ⟨wireUrl (pageReq st.settings q 0), now, .ok b0⟩]⟩ := rfl
              cases hT2 : T (pageReq st.settings q 80) with
              | error e =>
                  have hp2 : searchSingle T
                      ⟨mutSettings st.settings q 40,
                       some [⟨wireUrl (pageReq st.settings q 40), now, .ok b1⟩,
                             ⟨wireUrl (pageReq st.settings q 0), now, .ok b0⟩]⟩
                      ⟨some q, .num 80, .num 3⟩ now =
                      ⟨.error (.transportErr e),
                       ⟨mutSettings st.settings q 80,
                        some [⟨wireUrl (pageReq st.settings q 80), now, .error e⟩,
                              ⟨wireUrl (pageReq st.settings q 40), now, .ok b1⟩,
                              ⟨wireUrl (pageReq st.settings q 0), now, .ok b0⟩]⟩,
                       [pageReq st.settings q 80]⟩ :=
                    searchSingle_miss_err T _ q (.num 80) (.num 3) now e
                      [⟨wireUrl (pageReq st.settings q 40), now, .ok b1⟩,
                       ⟨wireUrl (pageReq st.settings q 0), now, .ok b0⟩]
                      hqb hl hid rfl
                      ((cacheFind_cons_ne _ _ _ _ _ hk12).trans
                        ((cacheFind_cons_ne _ _ _ _ _ hk02).trans (cacheFind_nil _ _ _)))
                      hT2
                  have hY : searchPages T ⟨some q, v, .num 3⟩ now 1 ((0 + 1) + 1)
                      ⟨mutSettings st.settings q 40,
                       some [⟨wireUrl (pageReq st.settings q 40), now, .ok b1⟩,
                             ⟨wireUrl (pageReq st.settings q 0), now, .ok b0⟩]⟩ =
                      ⟨.error (.transportErr e),
                       ⟨mutSettings st.settings q 80,
                        some [⟨wireUrl (pageReq st.settings q 80), now, .error e⟩,
                              ⟨wireUrl (pageReq st.settings q 40), now, .ok b1⟩,
                              ⟨wireUrl (pageReq st.settings q 0), now, .ok b0⟩]⟩,
                       [pageReq st.settings q 80]⟩ := by
                    rw [e10]
                    exact searchPages_succ_err T ⟨some q, v, .num 3⟩ now 0 ((0 + 1) + 1) _ _ _ _ hp2
                  rw [hs, e32, hpage0, e21, hpage1, hY] at hrun
                  exact absurd hrun (by simp [Except.map])
              | ok b2 =>
                  have hp2 : searchSingle T
                      ⟨mutSettings st.settings q 40,
                       some [⟨wireUrl (pageReq st.settings q 40), now, .ok b1⟩,
                             ⟨wireUrl (pageReq st.settings q 0), now, .ok b0⟩]⟩
                      ⟨some q, .num 80, .num 3⟩ now =
                      ⟨.ok b2,
                       ⟨mutSettings st.settings q 80,
                        some [⟨wireUrl (pageReq st.settings q 80), now, .ok b2⟩,
                              ⟨wireUrl (pageReq st.settings q 40), now, .ok b1⟩,
                              ⟨wireUrl (pageReq st.settings q 0), now, .ok b0⟩]⟩,
                       [pageReq st.settings q 80]⟩ :=
                    searchSingle_miss_ok T _ q (.num 80) (.num 3) now b2
                      [⟨wireUrl (pageReq st.settings q 40), now, .ok b1⟩,
                       ⟨wireUrl (pageReq st.settings q 0), now, .ok b0⟩]
                      hqb hl hid rfl
                      ((cacheFind_cons_ne _ _ _ _ _ hk12).trans
                        ((cacheFind_cons_ne _ _ _ _ _ hk02).trans (cacheFind_nil _ _ _)))
                      hT2
                  have hY : searchPages T ⟨some q, v, .num 3⟩ now 1 ((0 + 1) + 1)
                      ⟨mutSettings st.settings q 40,
                       some [⟨wireUrl (pageReq st.settings q 40), now, .ok b1⟩,
                             ⟨wireUrl (pageReq st.settings q 0), now, .ok b0⟩]⟩ =
                      ⟨.ok [b2],
                       ⟨mutSettings st.settings q 80,
                        some [⟨wireUrl (pageReq st.settings q 80), now, .ok b2⟩,
                              ⟨wireUrl (pageReq st.settings q 40), now, .ok b1⟩,
                              ⟨wireUrl (pageReq st.settings q 0), now, .ok b0⟩]⟩,
                       [pageReq st.settings q 80]⟩ := by
                    rw [e10]
                    rw [searchPages_succ_ok T ⟨some q, v, .num 3⟩ now 0 ((0 + 1) + 1) _ b2 _
                      [pageReq st.settings q 80] hp2]
                    rfl
                  have hX : searchPages T ⟨some q, v, .num 3⟩ now 2 (0 + 1)
                      ⟨mutSettings st.settings q 0,
                       some [⟨wireUrl (pageReq st.settings q 0), now, .ok b0⟩]⟩ =
                      ⟨.ok [b1, b2],
                       ⟨mutSettings st.settings q 80,
                        some [⟨wireUrl (pageReq st.settings q 80), now, .ok b2⟩,
                              ⟨wireUrl (pageReq st.settings q 40), now, .ok b1⟩,
                              ⟨wireUrl (pageReq st.settings q 0), now, .ok b0⟩]⟩,
                       [pageReq st.settings q 40, pageReq st.settings q 80]⟩ := by
                    rw [e21, hpage1, hY]
                    rfl
                  have hv3 : search T st ⟨some q, v, .num 3⟩ now =
                      ⟨.ok [b0, b1, b2],
                       ⟨mutSettings st.settings q 80,
                        some [⟨wireUrl (pageReq st.settings q 80), now, .ok b2⟩,
                              ⟨wireUrl (pageReq st.settings q 40), now, .ok b1⟩,
                              ⟨wireUrl (pageReq st.settings q 0), now, .ok b0⟩]⟩,
                       [pageReq st.settings q 0, pageReq st.settings q 40,
                        pageReq st.settings q 80]⟩ := by
                    rw [hs, e32, hpage0, hX]
                    rfl
                  rw [hv3] at hrun
                  simp only [] at hrun
                  injection hrun with hl'
                  refine ⟨b0, b1, b2, ?_, rfl, rfl, rfl, hl'.symm, rfl, rfl, rfl⟩
                  rw [hv3]

/-- C4 witness: a concrete successful three-page run. -/
theorem c4_witness :
    ∃ b0 b1 b2,
      (search T0 clientL ⟨some "a", .num 7, .num 3⟩ 0).trace =
        [pageReq clientL.settings "a" 0, pageReq clientL.settings "a" 40,
         pageReq clientL.settings "a" 80] ∧
      (pageReq clientL.settings "a" 0).qs.startIndex = 0 ∧
      (pageReq clientL.settings "a" 40).qs.startIndex = 40 ∧
      (pageReq clientL.settings "a" 80).qs.startIndex = 80 ∧
      ([0, 0, 0] : List Nat) = [b0, b1, b2] ∧
      T0 (pageReq clientL.settings "a" 0) = .ok b0 ∧
      T0 (pageReq clientL.settings "a" 40) = .ok b1 ∧
      T0 (pageReq clientL.settings "a" 80) = .ok b2 :=
  c4 T0 clientL "a" (.num 7) 0 [0, 0, 0] (by decide) rfl (by decide)

end GoogleBooksModel
